import Mathlib

/-!
Verification of the flathunter ingestion pipeline components against their
natural-language specification.  The Python modules `flathunter/processor.py`,
`flathunter/config.py`, `flathunter/crawler/immobilienscout.py` and
`flathunter/notifiers/sender_console.py` are shallowly embedded: Python dicts
become association lists over a value type `Y`, raised exceptions become the
`Except.error` branch of `Except PyExc`, and the external effects of Selenium
and HTTP fetching are supplied as explicit parameters describing the outcome
of each call site.
-/

set_option maxRecDepth 4096

/-- Exception kinds that the embedded Python code can raise. `fuelExhausted`
is not a Python exception: it marks recursion-fuel exhaustion when embedding
an unbounded `while` loop. -/
inductive PyExc where
  | valueError
  | keyError
  | indexError
  | attributeError
  | typeError
  | timeout
  | driverLoad
  | fuelExhausted
deriving DecidableEq, Repr

/-- Python/YAML values: `vNone` is Python `None`; dictionaries are embedded as
association lists that keep insertion order, mirroring Python dicts. Python
floats are modelled as exact rationals. -/
inductive Y where
  | vNone
  | vBool (b : Bool)
  | vInt (n : Int)
  | vRat (q : Rat)
  | vStr (s : String)
  | vList (xs : List Y)
  | vDict (xs : List (String × Y))

/-- Lookup of a key in an embedded Python dict (first binding wins; Python
dicts have unique keys, so this coincides with dict lookup). -/
def dictLookup : List (String × Y) → String → Option Y
  | [], _ => none
  | (k, v) :: rest, key => if k = key then some v else dictLookup rest key

/-- Python dict item assignment `d[key] = v`: replaces the value in place when
the key is present (Python preserves the original insertion position), appends
a new binding otherwise. -/
def dictSet (d : List (String × Y)) (key : String) (v : Y) : List (String × Y) :=
  if (dictLookup d key).isSome then
    d.map (fun kv => if kv.fst = key then (kv.fst, v) else kv)
  else d ++ [(key, v)]

/-- Python truthiness of an embedded value, as used by `x or y`. -/
def pyTruthy : Y → Bool
  | Y.vNone => false
  | Y.vBool b => b
  | Y.vInt n => decide (n ≠ 0)
  | Y.vRat q => decide (q ≠ 0)
  | Y.vStr s => decide (s ≠ "")
  | Y.vList xs => !xs.isEmpty
  | Y.vDict xs => !xs.isEmpty

/-- True exactly for the embedded Python `None`. -/
def Y.isNone : Y → Bool
  | Y.vNone => true
  | _ => false

/-- Python `value.get(key, default)`: defined for dicts, raises
`AttributeError` on every other receiver (including `None`). -/
def pyGet : Y → String → Y → Except PyExc Y
  | Y.vDict d, key, dflt => Except.ok ((dictLookup d key).getD dflt)
  | _, _, _ => Except.error PyExc.attributeError

/-- Whitespace strip on both ends of a character list (Python `str.strip()`
with no argument). -/
def pyStripL (cs : List Char) : List Char :=
  ((cs.dropWhile Char.isWhitespace).reverse.dropWhile Char.isWhitespace).reverse

/-- Numeric value of a list of decimal digit characters. -/
def natOfDigits (cs : List Char) : Nat :=
  cs.foldl (fun a c => a * 10 + (c.toNat - 48)) 0

/-- Python `int(s)` on a string: optionally signed decimal numeral after
stripping surrounding whitespace; `none` models the `ValueError` raised on
any other input. -/
def pyInt (s : String) : Option Int :=
  match pyStripL s.data with
  | '-' :: ds =>
    if ds ≠ [] ∧ ds.all Char.isDigit then some (-(natOfDigits ds : Int)) else none
  | '+' :: ds =>
    if ds ≠ [] ∧ ds.all Char.isDigit then some ((natOfDigits ds : Int)) else none
  | ds =>
    if ds ≠ [] ∧ ds.all Char.isDigit then some ((natOfDigits ds : Int)) else none

/-- Split of a character list on a single separator character; Python
`s.split(sep)` for a one-character separator (no collapsing of adjacent
separators, the empty string yields one empty field). -/
def pySplit (sep : Char) (cs : List Char) : List (List Char) :=
  cs.foldr
    (fun c acc =>
      match acc with
      | cur :: rest => if c = sep then [] :: cur :: rest else (c :: cur) :: rest
      | [] => [[c]])
    [[]]

/-- Python `s.replace(pat, repl)` (all non-overlapping occurrences, left to
right), recursing on fuel; each step consumes at least one character, so fuel
equal to the input length is exact. -/
def replaceAllFuel (pat repl : List Char) : Nat → List Char → List Char
  | 0, cs => cs
  | _ + 1, [] => []
  | fuel + 1, c :: rest =>
    if pat ≠ [] ∧ pat.isPrefixOf (c :: rest) then
      repl ++ replaceAllFuel pat repl fuel (rest.drop (pat.length - 1))
    else c :: replaceAllFuel pat repl fuel rest

/-- Python `s.replace(pat, repl)` on strings (for nonempty patterns). -/
def pyReplace (s pat repl : String) : String :=
  String.mk (replaceAllFuel pat.data repl.data s.data.length s.data)

/-- Python `float(s)` on a string in plain decimal notation, modelled as an
exact rational (CPython rounds to the nearest binary double; the claims under
verification compare which configuration source is consulted, not rounding).
`none` models `ValueError`. -/
def pyFloat (s : String) : Option Rat :=
  let t := pyStripL s.data
  let sgn : Rat := match t with
    | '-' :: _ => -1
    | _ => 1
  let t2 : List Char := match t with
    | '-' :: r => r
    | '+' :: r => r
    | _ => t
  let ip := t2.takeWhile (fun c => c ≠ '.')
  match t2.dropWhile (fun c => c ≠ '.') with
  | [] =>
    if ip ≠ [] ∧ ip.all Char.isDigit then some (sgn * (natOfDigits ip : Rat))
    else none
  | _ :: fp =>
    if (ip ≠ [] ∨ fp ≠ []) ∧ ip.all Char.isDigit ∧ fp.all Char.isDigit then
      some (sgn * ((natOfDigits ip : Rat) + (natOfDigits fp : Rat) / ((10 : Rat) ^ fp.length)))
    else none

/-- Python `s.strip()` (whitespace strip on both ends). -/
def pyStrip (s : String) : String := String.mk (pyStripL s.data)

/-- The function `elide` of `flathunter/config.py`, with Python strings
modelled as lists of characters: `s[0:3]` is `take 3`, `s[-3:]` is
`drop (length - 3)`, and `"x" * n` is `replicate n 'x'`. -/
def elide : Option (List Char) → Option (List Char)
  | none => none
  | some s =>
    if s.length = 0 then none
    else if s.length < 6 then some (List.replicate s.length 'x')
    else some (s.take 3 ++ List.replicate (s.length - 6) 'x' ++ s.drop (s.length - 3))

/-- C10: `elide` returns `None` on `None` or the empty string, masks short
strings (length below 6) entirely with `x`, and otherwise returns a string of
the same length that keeps exactly the first three and last three characters
and has `x` at every intermediate position. -/
theorem elide_masks_secret (s : List Char) :
    elide none = none
    ∧ (s.length = 0 → elide (some s) = none)
    ∧ (0 < s.length → s.length < 6 →
        elide (some s) = some (List.replicate s.length 'x'))
    ∧ (6 ≤ s.length →
        ∃ r, elide (some s) = some r
          ∧ r.length = s.length
          ∧ r.take 3 = s.take 3
          ∧ r.drop (s.length - 3) = s.drop (s.length - 3)
          ∧ ∀ i, 3 ≤ i → i < s.length - 3 → r[i]? = some 'x') := by
  refine ⟨rfl, ?_, ?_, ?_⟩
  · intro h
    simp [elide, h]
  · intro h0 h6
    have : ¬ s.length = 0 := by omega
    simp [elide, this, h6]
  · intro h6
    have h0 : ¬ s.length = 0 := by omega
    have h5 : ¬ s.length < 6 := by omega
    refine ⟨s.take 3 ++ List.replicate (s.length - 6) 'x' ++ s.drop (s.length - 3),
      by simp [elide, h0, h5], ?_, ?_, ?_, ?_⟩
    · simp only [List.length_append, List.length_take, List.length_replicate,
        List.length_drop]
      omega
    · rw [List.append_assoc, List.take_append_of_le_length (by simp; omega),
        List.take_take]
      simp
    · have hlen : (s.take 3 ++ List.replicate (s.length - 6) 'x').length = s.length - 3 := by
        simp only [List.length_append, List.length_take, List.length_replicate]
        omega
      calc ((s.take 3 ++ List.replicate (s.length - 6) 'x') ++ s.drop (s.length - 3)).drop (s.length - 3)
          = ((s.take 3 ++ List.replicate (s.length - 6) 'x') ++ s.drop (s.length - 3)).drop
              (s.take 3 ++ List.replicate (s.length - 6) 'x').length := by rw [hlen]
        _ = s.drop (s.length - 3) := List.drop_left _ _
    · intro i h3 hi
      have htk : (s.take 3).length = 3 := by simp; omega
      rw [List.append_assoc]
      rw [List.getElem?_append_right (by omega : (s.take 3).length ≤ i)]
      rw [htk]
      rw [List.getElem?_append]
      have hlt : i - 3 < s.length - 6 := by omega
      simp [List.getElem?_replicate, hlt]

/-- Witness for C10 at the concrete secret `"abcdefgh"` (length 8). -/
theorem elide_masks_secret_witness :
    ∃ r, elide (some ("abcdefgh".toList)) = some r
      ∧ r.length = ("abcdefgh".toList).length
      ∧ r.take 3 = ("abcdefgh".toList).take 3
      ∧ r.drop (("abcdefgh".toList).length - 3) = ("abcdefgh".toList).drop (("abcdefgh".toList).length - 3)
      ∧ ∀ i, 3 ≤ i → i < ("abcdefgh".toList).length - 3 → r[i]? = some 'x' :=
  (elide_masks_secret ("abcdefgh".toList)).2.2.2 (by decide)

/-- Tags for the processor classes that `ProcessorChainBuilder` of
`flathunter/processor.py` can append; identity of a processor instance is
abstracted to its class. -/
inductive ProcTag where
  | senderTelegram
  | senderMattermost
  | senderApprise
  | senderSlack
  | senderConsole
  | autoEmailProcessor
  | addressResolver
  | gmapsDurationProcessor
  | crawlExposeDetailsProcessor
  | lambdaProcessor
  | filterProcessor
  | saveAllExposesProcessor
deriving DecidableEq, Repr

/-- The class `ProcessorChain` of `flathunter/processor.py`: it holds the list
of processors handed over by the builder. -/
structure ProcessorChain (P : Type) where
  processors : List P

/-- The method `ProcessorChain.process`: `reduce` of
`processor.process_exposes` over the processor list, seeded with the input
expose sequence. The dynamic dispatch `processor.process_exposes` is supplied
as the function argument `step`. -/
def ProcessorChain.process {P E : Type} (step : P → List E → List E)
    (c : ProcessorChain P) (exposes : List E) : List E :=
  c.processors.foldl (fun es p => step p es) exposes

/-- The method `ProcessorChainBuilder.send_messages`: appends one sender
processor per configured notifier name, testing the names in the fixed
source order telegram, mattermost, apprise, slack, console. -/
def ProcessorChainBuilder.send_messages (notifiers : List String)
    (processors : List ProcTag) : List ProcTag :=
  let ps := processors
  let ps := if notifiers.contains "telegram" then ps ++ [ProcTag.senderTelegram] else ps
  let ps := if notifiers.contains "mattermost" then ps ++ [ProcTag.senderMattermost] else ps
  let ps := if notifiers.contains "apprise" then ps ++ [ProcTag.senderApprise] else ps
  let ps := if notifiers.contains "slack" then ps ++ [ProcTag.senderSlack] else ps
  let ps := if notifiers.contains "console" then ps ++ [ProcTag.senderConsole] else ps
  ps

/-- The method `ProcessorChainBuilder.build`: wraps the accumulated processor
list in a `ProcessorChain`. -/
def ProcessorChainBuilder.build (processors : List ProcTag) : ProcessorChain ProcTag :=
  ⟨processors⟩

/-- The fixed association of notifier names to sender processors, in the
order in which `send_messages` tests them. -/
def senderTable : List (String × ProcTag) :=
  [("telegram", ProcTag.senderTelegram),
   ("mattermost", ProcTag.senderMattermost),
   ("apprise", ProcTag.senderApprise),
   ("slack", ProcTag.senderSlack),
   ("console", ProcTag.senderConsole)]

/-- C1: `ProcessorChain.process` threads the expose sequence through the
processors strictly in list order (the output of each processor is the input
of the next, a left fold), and a chain with an empty processor list returns
the input sequence unchanged. -/
theorem processorChain_process_in_order {P E : Type} (step : P → List E → List E)
    (p : P) (ps : List P) (exposes : List E) :
    (ProcessorChain.mk ([] : List P)).process step exposes = exposes
    ∧ (ProcessorChain.mk (p :: ps)).process step exposes
        = (ProcessorChain.mk ps).process step (step p exposes)
    ∧ (ProcessorChain.mk ps).process step exposes
        = ps.foldl (fun es q => step q es) exposes :=
  ⟨rfl, rfl, rfl⟩

/-- C5: `send_messages` appends exactly one sender processor per notifier
name present in the configured notifier list — telegram, mattermost, apprise,
slack, console, always in that fixed order, independent of the order of the
configured names — and `build` returns a `ProcessorChain` holding exactly the
processors appended by the builder, in append order. -/
theorem send_messages_fixed_order (notifiers : List String) (processors : List ProcTag) :
    ProcessorChainBuilder.send_messages notifiers processors
      = processors ++ (senderTable.filter (fun kv => notifiers.contains kv.fst)).map Prod.snd
    ∧ (ProcessorChainBuilder.build processors).processors = processors := by
  constructor
  · by_cases h1 : "telegram" ∈ notifiers <;>
      by_cases h2 : "mattermost" ∈ notifiers <;>
        by_cases h3 : "apprise" ∈ notifiers <;>
          by_cases h4 : "slack" ∈ notifiers <;>
            by_cases h5 : "console" ∈ notifiers <;>
              simp [ProcessorChainBuilder.send_messages, senderTable, h1, h2, h3, h4, h5]
  · rfl

/-- The environment variables that the class `Env` of `flathunter/config.py`
reads, restricted to those the claims exercise. The class body runs once at
module import, so each field holds the value captured at that moment. -/
structure EnvSnapshot where
  flathunter_notifiers : Option String
  flathunter_loop_period_seconds : Option String
  flathunter_filter_min_price : Option String
  flathunter_filter_max_price : Option String
  flathunter_filter_min_size : Option String
  flathunter_filter_max_size : Option String
  flathunter_filter_min_rooms : Option String
  flathunter_filter_max_rooms : Option String
  flathunter_filter_max_price_per_square : Option String

/-- Evaluation of the `Env` class body: every field is `_read_env` of the
corresponding variable, applied to the process environment `read` as it is
when `flathunter.config` is imported. The class docstring reads "Registers
and freezes environment variables". -/
def Env.capture (read : String → Option String) : EnvSnapshot :=
  ⟨read "FLATHUNTER_NOTIFIERS",
   read "FLATHUNTER_LOOP_PERIOD_SECONDS",
   read "FLATHUNTER_FILTER_MIN_PRICE",
   read "FLATHUNTER_FILTER_MAX_PRICE",
   read "FLATHUNTER_FILTER_MIN_SIZE",
   read "FLATHUNTER_FILTER_MAX_SIZE",
   read "FLATHUNTER_FILTER_MIN_ROOMS",
   read "FLATHUNTER_FILTER_MAX_ROOMS",
   read "FLATHUNTER_FILTER_MAX_PRICE_PER_SQUARE"⟩

/-- The method `YamlConfig._read_yaml_path`: resolves a dotted path in the
nested config dictionaries. The `while` loop descends with
`config.get(parts[0], {})` while more than one part remains and the current
value is not `None`; afterwards a `None` current value, a missing key, or a
stored `None` result all produce the default. -/
def read_yaml_path : Y → List String → Y → Except PyExc Y
  | cfg, p :: q :: rest, dflt =>
    if cfg.isNone then Except.ok dflt
    else
      match pyGet cfg p (Y.vDict []) with
      | Except.error e => Except.error e
      | Except.ok next => read_yaml_path next (q :: rest) dflt
  | cfg, [p], dflt =>
    if cfg.isNone then Except.ok dflt
    else
      match pyGet cfg p dflt with
      | Except.error e => Except.error e
      | Except.ok res => Except.ok (if res.isNone then dflt else res)
  | _, [], dflt => Except.ok dflt

/-- The method `YamlConfig._get_filter_config`:
`(self.config.get("filters", {}) or {}).get(key, None)`. A stored `None` and
a missing key are indistinguishable in Python, so both are embedded as
`Y.vNone`. -/
def yaml_get_filter_config (cfg : List (String × Y)) (key : String) : Except PyExc Y :=
  let filters := (dictLookup cfg "filters").getD (Y.vDict [])
  let filters2 := if pyTruthy filters then filters else Y.vDict []
  pyGet filters2 key Y.vNone

/-- The method `YamlConfig.min_price`. -/
def YamlConfig.min_price (cfg : List (String × Y)) : Except PyExc Y :=
  yaml_get_filter_config cfg "min_price"

/-- The method `YamlConfig.max_price`. -/
def YamlConfig.max_price (cfg : List (String × Y)) : Except PyExc Y :=
  yaml_get_filter_config cfg "max_price"

/-- The method `YamlConfig.min_size`. -/
def YamlConfig.min_size (cfg : List (String × Y)) : Except PyExc Y :=
  yaml_get_filter_config cfg "min_size"

/-- The method `YamlConfig.max_size`. -/
def YamlConfig.max_size (cfg : List (String × Y)) : Except PyExc Y :=
  yaml_get_filter_config cfg "max_size"

/-- The method `YamlConfig.min_rooms`. -/
def YamlConfig.min_rooms (cfg : List (String × Y)) : Except PyExc Y :=
  yaml_get_filter_config cfg "min_rooms"

/-- The method `YamlConfig.max_rooms`. -/
def YamlConfig.max_rooms (cfg : List (String × Y)) : Except PyExc Y :=
  yaml_get_filter_config cfg "max_rooms"

/-- The method `YamlConfig.max_price_per_square`. -/
def YamlConfig.max_price_per_square (cfg : List (String × Y)) : Except PyExc Y :=
  yaml_get_filter_config cfg "max_price_per_square"

/-- The method `YamlConfig.notifiers`: `_read_yaml_path('notifiers', [])`. -/
def YamlConfig.notifiers (cfg : List (String × Y)) : Except PyExc Y :=
  read_yaml_path (Y.vDict cfg) ["notifiers"] (Y.vList [])

/-- The method `YamlConfig.loop_period_seconds`:
`_read_yaml_path('loop.sleeping_time', 60 * 10)`. -/
def YamlConfig.loop_period_seconds (cfg : List (String × Y)) : Except PyExc Y :=
  read_yaml_path (Y.vDict cfg) ["loop", "sleeping_time"] (Y.vInt 600)

/-- Python `int(s)` lifted to the embedding: the parsed value, or
`ValueError`. -/
def pyIntY (s : String) : Except PyExc Y :=
  match pyInt s with
  | some n => Except.ok (Y.vInt n)
  | none => Except.error PyExc.valueError

/-- Python `float(s)` lifted to the embedding: the parsed value, or
`ValueError`. -/
def pyFloatY (s : String) : Except PyExc Y :=
  match pyFloat s with
  | some q => Except.ok (Y.vRat q)
  | none => Except.error PyExc.valueError

/-- The method `Config.min_price`: the frozen `FLATHUNTER_FILTER_MIN_PRICE`
takes precedence, parsed with `int(...)`; otherwise the file-based value. -/
def Config.min_price (env : EnvSnapshot) (cfg : List (String × Y)) : Except PyExc Y :=
  match env.flathunter_filter_min_price with
  | some s => pyIntY s
  | none => YamlConfig.min_price cfg

/-- The method `Config.max_price`. -/
def Config.max_price (env : EnvSnapshot) (cfg : List (String × Y)) : Except PyExc Y :=
  match env.flathunter_filter_max_price with
  | some s => pyIntY s
  | none => YamlConfig.max_price cfg

/-- The method `Config.min_size`. -/
def Config.min_size (env : EnvSnapshot) (cfg : List (String × Y)) : Except PyExc Y :=
  match env.flathunter_filter_min_size with
  | some s => pyIntY s
  | none => YamlConfig.min_size cfg

/-- The method `Config.max_size`. -/
def Config.max_size (env : EnvSnapshot) (cfg : List (String × Y)) : Except PyExc Y :=
  match env.flathunter_filter_max_size with
  | some s => pyIntY s
  | none => YamlConfig.max_size cfg

/-- The method `Config.min_rooms`. -/
def Config.min_rooms (env : EnvSnapshot) (cfg : List (String × Y)) : Except PyExc Y :=
  match env.flathunter_filter_min_rooms with
  | some s => pyIntY s
  | none => YamlConfig.min_rooms cfg

/-- The method `Config.max_rooms`. -/
def Config.max_rooms (env : EnvSnapshot) (cfg : List (String × Y)) : Except PyExc Y :=
  match env.flathunter_filter_max_rooms with
  | some s => pyIntY s
  | none => YamlConfig.max_rooms cfg

/-- The method `Config.max_price_per_square`: the environment override is
parsed with `float(...)`, not `int(...)`. -/
def Config.max_price_per_square (env : EnvSnapshot) (cfg : List (String × Y)) : Except PyExc Y :=
  match env.flathunter_filter_max_price_per_square with
  | some s => pyFloatY s
  | none => YamlConfig.max_price_per_square cfg

/-- The method `Config.notifiers`: the frozen `FLATHUNTER_NOTIFIERS` split on
commas takes precedence, otherwise the file-based list. -/
def Config.notifiers (env : EnvSnapshot) (cfg : List (String × Y)) : Except PyExc Y :=
  match env.flathunter_notifiers with
  | some s => Except.ok (Y.vList ((pySplit ',' s.data).map (fun cs => Y.vStr (String.mk cs))))
  | none => YamlConfig.notifiers cfg

/-- The method `Config.loop_period_seconds`: the frozen
`FLATHUNTER_LOOP_PERIOD_SECONDS` parsed with `int(...)` takes precedence,
otherwise the file-based value. -/
def Config.loop_period_seconds (env : EnvSnapshot) (cfg : List (String × Y)) : Except PyExc Y :=
  match env.flathunter_loop_period_seconds with
  | some s => pyIntY s
  | none => YamlConfig.loop_period_seconds cfg

/-- Modelled from the spec: "configuration is read fresh at the start of each
cycle (hot-reloadable)" — a `notifiers` accessor that consults the live
process environment at the moment of the call instead of the frozen `Env`
snapshot. Used to compare the code against the claimed behaviour. -/
def Config.notifiers_fresh (read : String → Option String) (cfg : List (String × Y)) : Except PyExc Y :=
  match read "FLATHUNTER_NOTIFIERS" with
  | some s => Except.ok (Y.vList ((pySplit ',' s.data).map (fun cs => Y.vStr (String.mk cs))))
  | none => YamlConfig.notifiers cfg

/-- Modelled from the spec: `loop_period_seconds` reading the live
environment at call time. -/
def Config.loop_period_seconds_fresh (read : String → Option String) (cfg : List (String × Y)) : Except PyExc Y :=
  match read "FLATHUNTER_LOOP_PERIOD_SECONDS" with
  | some s => pyIntY s
  | none => YamlConfig.loop_period_seconds cfg

/-- Modelled from the spec: `min_price` reading the live environment at call
time. -/
def Config.min_price_fresh (read : String → Option String) (cfg : List (String × Y)) : Except PyExc Y :=
  match read "FLATHUNTER_FILTER_MIN_PRICE" with
  | some s => pyIntY s
  | none => YamlConfig.min_price cfg

/-- The configurations in which, per the claim, a numeric constraint imposes
no bound: the `filters` section is absent, is `None`, or is a dict that lacks
the key or maps it to `None`. -/
def noFilterBound (cfg : List (String × Y)) (key : String) : Bool :=
  match dictLookup cfg "filters" with
  | none => true
  | some Y.vNone => true
  | some (Y.vDict d) =>
    match dictLookup d key with
    | none => true
    | some Y.vNone => true
    | some _ => false
  | some _ => false

/-- When the `filters` section imposes no bound for `key`,
`_get_filter_config` returns Python `None`. -/
theorem yaml_get_filter_config_none (cfg : List (String × Y)) (key : String)
    (h : noFilterBound cfg key = true) :
    yaml_get_filter_config cfg key = Except.ok Y.vNone := by
  unfold noFilterBound at h
  unfold yaml_get_filter_config
  cases hf : dictLookup cfg "filters" with
  | none => simp [hf, pyTruthy, pyGet, dictLookup]
  | some v =>
    simp only [hf] at h
    cases v with
    | vNone => simp [hf, pyTruthy, pyGet, dictLookup]
    | vBool b => simp at h
    | vInt n => simp at h
    | vRat q => simp at h
    | vStr s => simp at h
    | vList xs => simp at h
    | vDict d =>
      cases hk : dictLookup d key with
      | none =>
        cases d with
        | nil => simp [hf, pyTruthy, pyGet, dictLookup]
        | cons a rest => simp [hf, pyTruthy, pyGet, hk]
      | some w =>
        simp only [hk] at h
        cases w with
        | vNone =>
          cases d with
          | nil => simp [dictLookup] at hk
          | cons a rest => simp [hf, pyTruthy, pyGet, hk]
        | vBool b => simp at h
        | vInt n => simp at h
        | vRat q => simp at h
        | vStr s => simp at h
        | vList xs => simp at h
        | vDict e => simp at h

/-- C2: when no `FLATHUNTER_FILTER_*` variable was captured and the `filters`
section is absent, lacks the key, or maps it to `None`, every numeric
constraint accessor returns `None`: the absent constraint imposes no bound. -/
theorem absent_constraint_no_bound (env : EnvSnapshot) (cfg : List (String × Y))
    (henv : env.flathunter_filter_min_price = none
      ∧ env.flathunter_filter_max_price = none
      ∧ env.flathunter_filter_min_size = none
      ∧ env.flathunter_filter_max_size = none
      ∧ env.flathunter_filter_min_rooms = none
      ∧ env.flathunter_filter_max_rooms = none
      ∧ env.flathunter_filter_max_price_per_square = none)
    (hcfg : noFilterBound cfg "min_price" = true
      ∧ noFilterBound cfg "max_price" = true
      ∧ noFilterBound cfg "min_size" = true
      ∧ noFilterBound cfg "max_size" = true
      ∧ noFilterBound cfg "min_rooms" = true
      ∧ noFilterBound cfg "max_rooms" = true
      ∧ noFilterBound cfg "max_price_per_square" = true) :
    Config.min_price env cfg = Except.ok Y.vNone
    ∧ Config.max_price env cfg = Except.ok Y.vNone
    ∧ Config.min_size env cfg = Except.ok Y.vNone
    ∧ Config.max_size env cfg = Except.ok Y.vNone
    ∧ Config.min_rooms env cfg = Except.ok Y.vNone
    ∧ Config.max_rooms env cfg = Except.ok Y.vNone
    ∧ Config.max_price_per_square env cfg = Except.ok Y.vNone := by
  obtain ⟨e1, e2, e3, e4, e5, e6, e7⟩ := henv
  obtain ⟨c1, c2, c3, c4, c5, c6, c7⟩ := hcfg
  refine ⟨?_, ?_, ?_, ?_, ?_, ?_, ?_⟩
  · simp only [Config.min_price, e1, YamlConfig.min_price]
    exact yaml_get_filter_config_none _ _ c1
  · simp only [Config.max_price, e2, YamlConfig.max_price]
    exact yaml_get_filter_config_none _ _ c2
  · simp only [Config.min_size, e3, YamlConfig.min_size]
    exact yaml_get_filter_config_none _ _ c3
  · simp only [Config.max_size, e4, YamlConfig.max_size]
    exact yaml_get_filter_config_none _ _ c4
  · simp only [Config.min_rooms, e5, YamlConfig.min_rooms]
    exact yaml_get_filter_config_none _ _ c5
  · simp only [Config.max_rooms, e6, YamlConfig.max_rooms]
    exact yaml_get_filter_config_none _ _ c6
  · simp only [Config.max_price_per_square, e7, YamlConfig.max_price_per_square]
    exact yaml_get_filter_config_none _ _ c7

/-- An environment capture in which no variable is set. -/
def envAllNone : EnvSnapshot :=
  ⟨none, none, none, none, none, none, none, none, none⟩

/-- Witness for C2: empty environment together with a config whose `filters`
section is `None`. -/
theorem absent_constraint_no_bound_witness :
    Config.min_price envAllNone [("filters", Y.vNone)] = Except.ok Y.vNone
    ∧ Config.max_price envAllNone [("filters", Y.vNone)] = Except.ok Y.vNone
    ∧ Config.min_size envAllNone [("filters", Y.vNone)] = Except.ok Y.vNone
    ∧ Config.max_size envAllNone [("filters", Y.vNone)] = Except.ok Y.vNone
    ∧ Config.min_rooms envAllNone [("filters", Y.vNone)] = Except.ok Y.vNone
    ∧ Config.max_rooms envAllNone [("filters", Y.vNone)] = Except.ok Y.vNone
    ∧ Config.max_price_per_square envAllNone [("filters", Y.vNone)] = Except.ok Y.vNone :=
  absent_constraint_no_bound envAllNone [("filters", Y.vNone)]
    ⟨rfl, rfl, rfl, rfl, rfl, rfl, rfl⟩ ⟨rfl, rfl, rfl, rfl, rfl, rfl, rfl⟩

/-- C7: each numeric filter accessor returns the parsed environment value
(`int` for prices, sizes and rooms; `float` for the price-per-square bound)
when the corresponding variable is set, ignoring the file, and returns the
file-based value unchanged when the variable is unset. -/
theorem env_overrides_filter_bounds (env : EnvSnapshot) (cfg : List (String × Y)) :
    (∀ s n, env.flathunter_filter_min_price = some s → pyInt s = some n →
        Config.min_price env cfg = Except.ok (Y.vInt n))
    ∧ (env.flathunter_filter_min_price = none →
        Config.min_price env cfg = YamlConfig.min_price cfg)
    ∧ (∀ s n, env.flathunter_filter_max_price = some s → pyInt s = some n →
        Config.max_price env cfg = Except.ok (Y.vInt n))
    ∧ (env.flathunter_filter_max_price = none →
        Config.max_price env cfg = YamlConfig.max_price cfg)
    ∧ (∀ s n, env.flathunter_filter_min_size = some s → pyInt s = some n →
        Config.min_size env cfg = Except.ok (Y.vInt n))
    ∧ (env.flathunter_filter_min_size = none →
        Config.min_size env cfg = YamlConfig.min_size cfg)
    ∧ (∀ s n, env.flathunter_filter_max_size = some s → pyInt s = some n →
        Config.max_size env cfg = Except.ok (Y.vInt n))
    ∧ (env.flathunter_filter_max_size = none →
        Config.max_size env cfg = YamlConfig.max_size cfg)
    ∧ (∀ s n, env.flathunter_filter_min_rooms = some s → pyInt s = some n →
        Config.min_rooms env cfg = Except.ok (Y.vInt n))
    ∧ (env.flathunter_filter_min_rooms = none →
        Config.min_rooms env cfg = YamlConfig.min_rooms cfg)
    ∧ (∀ s n, env.flathunter_filter_max_rooms = some s → pyInt s = some n →
        Config.max_rooms env cfg = Except.ok (Y.vInt n))
    ∧ (env.flathunter_filter_max_rooms = none →
        Config.max_rooms env cfg = YamlConfig.max_rooms cfg)
    ∧ (∀ s q, env.flathunter_filter_max_price_per_square = some s → pyFloat s = some q →
        Config.max_price_per_square env cfg = Except.ok (Y.vRat q))
    ∧ (env.flathunter_filter_max_price_per_square = none →
        Config.max_price_per_square env cfg = YamlConfig.max_price_per_square cfg) := by
  refine ⟨?_, ?_, ?_, ?_, ?_, ?_, ?_, ?_, ?_, ?_, ?_, ?_, ?_, ?_⟩
  · intro s n hs hp
    simp only [Config.min_price, hs, pyIntY, hp]
  · intro h
    simp only [Config.min_price, h]
  · intro s n hs hp
    simp only [Config.max_price, hs, pyIntY, hp]
  · intro h
    simp only [Config.max_price, h]
  · intro s n hs hp
    simp only [Config.min_size, hs, pyIntY, hp]
  · intro h
    simp only [Config.min_size, h]
  · intro s n hs hp
    simp only [Config.max_size, hs, pyIntY, hp]
  · intro h
    simp only [Config.max_size, h]
  · intro s n hs hp
    simp only [Config.min_rooms, hs, pyIntY, hp]
  · intro h
    simp only [Config.min_rooms, h]
  · intro s n hs hp
    simp only [Config.max_rooms, hs, pyIntY, hp]
  · intro h
    simp only [Config.max_rooms, h]
  · intro s q hs hp
    simp only [Config.max_price_per_square, hs, pyFloatY, hp]
  · intro h
    simp only [Config.max_price_per_square, h]

/-- An environment capture in which every numeric filter variable is set. -/
def envFiltersSet : EnvSnapshot :=
  ⟨none, none, some "100", some "1000", some "20", some "80",
   some "1", some "4", some "17.5"⟩

/-- Witness for C7: with every filter variable set, the parsed environment
values win; with the empty environment, the file-based value is returned. -/
theorem env_overrides_filter_bounds_witness :
    Config.min_price envFiltersSet [] = Except.ok (Y.vInt 100)
    ∧ Config.max_price_per_square envFiltersSet [] = Except.ok (Y.vRat (35 / 2))
    ∧ Config.min_price envAllNone [("filters", Y.vDict [("min_price", Y.vInt 7)])]
        = YamlConfig.min_price [("filters", Y.vDict [("min_price", Y.vInt 7)])] :=
  ⟨(env_overrides_filter_bounds envFiltersSet []).1 "100" 100 rfl (by decide),
   (env_overrides_filter_bounds envFiltersSet []).2.2.2.2.2.2.2.2.2.2.2.2.1 "17.5" (35 / 2) rfl
     (by
       have h : pyStripL "17.5".data = ['1', '7', '.', '5'] := by decide
       simp +decide [pyFloat, h, natOfDigits]
       norm_num),
   (env_overrides_filter_bounds envAllNone [("filters", Y.vDict [("min_price", Y.vInt 7)])]).2.1 rfl⟩

/-- An import-time environment in which `FLATHUNTER_NOTIFIERS` is
`"console"`. -/
def envConsole : String → Option String :=
  fun k => if k = "FLATHUNTER_NOTIFIERS" then some "console" else none

/-- A call-time environment in which `FLATHUNTER_NOTIFIERS` has been changed
to `"slack"`. -/
def envSlack : String → Option String :=
  fun k => if k = "FLATHUNTER_NOTIFIERS" then some "slack" else none

/-- Counterexample to C6: the `Env` class body captures the environment once
at module import; a later call to `Config.notifiers` still returns the value
derived from the import-time environment (`"console"`), not the value the
changed call-time environment (`"slack"`) would give, so the accessor does
not reflect the environment at the time of the call. -/
theorem env_frozen_counterexample :
    Config.notifiers (Env.capture envConsole) [] = Except.ok (Y.vList [Y.vStr "console"])
    ∧ Config.notifiers_fresh envSlack [] = Except.ok (Y.vList [Y.vStr "slack"])
    ∧ Config.notifiers (Env.capture envConsole) [] ≠ Config.notifiers_fresh envSlack [] := by
  refine ⟨rfl, rfl, ?_⟩
  have h1 : Config.notifiers (Env.capture envConsole) []
      = Except.ok (Y.vList [Y.vStr "console"]) := rfl
  have h2 : Config.notifiers_fresh envSlack [] = Except.ok (Y.vList [Y.vStr "slack"]) := rfl
  rw [h1, h2]
  intro h
  injection h with h
  injection h with h
  injection h with h htail
  injection h with h
  exact absurd h (by decide)

/-- C6 amended: every environment-overridable accessor returns the value
derived from the environment as captured once when the `Env` class body runs
at module load; the result of a later call equals what freshly reading that
load-time environment would give, and changing a variable after the module
has loaded does not affect it. -/
theorem env_read_at_import_time (read : String → Option String) (cfg : List (String × Y)) :
    Config.notifiers (Env.capture read) cfg = Config.notifiers_fresh read cfg
    ∧ Config.loop_period_seconds (Env.capture read) cfg
        = Config.loop_period_seconds_fresh read cfg
    ∧ Config.min_price (Env.capture read) cfg = Config.min_price_fresh read cfg :=
  ⟨rfl, rfl, rfl⟩

/-- An expose record: a Python dict from field names to values. -/
abbrev Expose := List (String × Y)

/-- Occurrence of `pat` as a contiguous substring of the second list. -/
def containsSub (pat : List Char) : List Char → Bool
  | [] => pat.isEmpty
  | c :: rest => pat.isPrefixOf (c :: rest) || containsSub pat rest

/-- Python `re.match(r'.*sofort.*', text)` viewed as a Boolean: `.` does not
match a newline and `re.match` anchors at the start, so the pattern matches
exactly when `"sofort"` occurs before the first newline of `text`. -/
def matchSofort (t : String) : Bool :=
  containsSub "sofort".data (t.data.takeWhile (fun c => c ≠ '\n'))

/-- The expose-detail page fetched by `get_expose_details`:
`bezugsfreiAb` is the text of the `dd` element with class
`is24qa-bezugsfrei-ab` when that element is present. -/
structure DetailPage where
  bezugsfreiAb : Option String

/-- The method `SenderConsole.process_expose` of
`flathunter/notifiers/sender_console.py`: logs the expose and returns it
unchanged (logging is a pure side effect outside the value model). -/
def SenderConsole.process_expose (expose : Expose) : Expose := expose

/-- The method `Immobilienscout.get_expose_details`: fetches the page at
`expose['url']` (the fetched page is the `page` parameter; a missing `url`
key raises `KeyError`), writes `expose['from']` with today's formatted date
`now`, and overwrites it with the stripped availability text unless that text
matches `.*sofort.*`. -/
def get_expose_details (page : DetailPage) (now : String) (expose : Expose) : Except PyExc Expose :=
  match dictLookup expose "url" with
  | none => Except.error PyExc.keyError
  | some _ =>
    let e1 := dictSet expose "from" (Y.vStr now)
    match page.bezugsfreiAb with
    | none => Except.ok e1
    | some txt =>
      if matchSofort txt then Except.ok e1
      else Except.ok (dictSet e1 "from" (Y.vStr (pyStrip txt)))

/-- Replacing the value of `key` in place does not change the binding of any
other key. -/
theorem dictLookup_mapReplace (d : List (String × Y)) (key k : String) (v : Y)
    (h : k ≠ key) :
    dictLookup (d.map (fun kv => if kv.fst = key then (kv.fst, v) else kv)) k
      = dictLookup d k := by
  induction d with
  | nil => rfl
  | cons a rest ih =>
    obtain ⟨ak, av⟩ := a
    by_cases ha : ak = key
    · subst ha
      have hak : ¬ ak = k := fun hh => h hh.symm
      simp only [List.map_cons, if_pos rfl]
      simp [dictLookup, hak, ih]
    · simp only [List.map_cons, if_neg ha]
      by_cases hk2 : ak = k
      · simp [dictLookup, hk2]
      · simp [dictLookup, hk2, ih]

/-- Appending a fresh binding for `key` does not change the binding of any
other key. -/
theorem dictLookup_append_single (d : List (String × Y)) (key k : String) (v : Y)
    (h : k ≠ key) :
    dictLookup (d ++ [(key, v)]) k = dictLookup d k := by
  induction d with
  | nil =>
    have : ¬ key = k := fun hh => h hh.symm
    simp [dictLookup, this]
  | cons a rest ih =>
    obtain ⟨ak, av⟩ := a
    by_cases hk2 : ak = k
    · simp [dictLookup, hk2]
    · simp [dictLookup, hk2, ih]

/-- Python dict assignment changes no binding other than the assigned key. -/
theorem dictLookup_dictSet_ne (d : List (String × Y)) (key k : String) (v : Y)
    (h : k ≠ key) :
    dictLookup (dictSet d key v) k = dictLookup d k := by
  unfold dictSet
  by_cases hs : (dictLookup d key).isSome
  · simp only [hs, if_true]
    exact dictLookup_mapReplace d key k v h
  · simp only [hs, Bool.false_eq_true, if_false]
    exact dictLookup_append_single d key k v h

/-- C4: `SenderConsole.process_expose` returns the expose with every field
unchanged, and `get_expose_details` changes no existing field other than the
`from` annotation — every key other than `from` (in particular id, url,
title, price, size, rooms, address, crawler) keeps its value. -/
theorem stages_preserve_identifying_fields (page : DetailPage) (now : String)
    (e r : Expose) (k : String) (hk : k ≠ "from")
    (hr : get_expose_details page now e = Except.ok r) :
    SenderConsole.process_expose e = e ∧ dictLookup r k = dictLookup e k := by
  refine ⟨rfl, ?_⟩
  unfold get_expose_details at hr
  cases hu : dictLookup e "url" with
  | none =>
    simp only [hu] at hr
    exact absurd hr (by simp)
  | some u =>
    simp only [hu] at hr
    cases hp : page.bezugsfreiAb with
    | none =>
      simp only [hp, Except.ok.injEq] at hr
      rw [← hr]
      exact dictLookup_dictSet_ne e "from" k (Y.vStr now) hk
    | some txt =>
      simp only [hp] at hr
      cases hm : matchSofort txt with
      | true =>
        simp only [hm, if_true, Except.ok.injEq] at hr
        rw [← hr]
        exact dictLookup_dictSet_ne e "from" k (Y.vStr now) hk
      | false =>
        simp only [hm, Bool.false_eq_true, if_false, Except.ok.injEq] at hr
        rw [← hr]
        rw [dictLookup_dictSet_ne _ "from" k _ hk]
        exact dictLookup_dictSet_ne e "from" k (Y.vStr now) hk

/-- Witness for C4 at a concrete expose with id, url and title, a detail page
with availability text `"01.01.2027"`, and the preserved key `"id"`. -/
theorem stages_preserve_identifying_fields_witness :
    SenderConsole.process_expose
        [("id", Y.vInt 1), ("url", Y.vStr "u"), ("title", Y.vStr "t")]
      = [("id", Y.vInt 1), ("url", Y.vStr "u"), ("title", Y.vStr "t")]
    ∧ dictLookup
        [("id", Y.vInt 1), ("url", Y.vStr "u"), ("title", Y.vStr "t"),
         ("from", Y.vStr "01.01.2027")] "id"
      = dictLookup [("id", Y.vInt 1), ("url", Y.vStr "u"), ("title", Y.vStr "t")] "id" :=
  stages_preserve_identifying_fields ⟨some "01.01.2027"⟩ "12.10.2026"
    [("id", Y.vInt 1), ("url", Y.vStr "u"), ("title", Y.vStr "t")]
    [("id", Y.vInt 1), ("url", Y.vStr "u"), ("title", Y.vStr "t"),
     ("from", Y.vStr "01.01.2027")] "id" (by decide) (by rfl)

/-- Outcomes of the external Selenium interactions performed by
`Immobilienscout.send_email`, one field per call site in source order; `none`
means the call returned normally, `some e` that it raised `e`. The cookie
banner block catches only `TimeoutException` itself; the final contact-form
block is wrapped in `try ... except Exception`. -/
structure SendEmailWorld where
  driverLoad : Option PyExc
  login : Option PyExc
  navigate : Option PyExc
  hasGeetest : Bool
  hasRecaptcha : Bool
  geetest : Option PyExc
  recaptcha : Option PyExc
  cookieBanner : Option PyExc
  formPhase : Option PyExc

/-- The contact-form block of `send_email`: every path inside the `try`
returns the expose (including the early returns for a missing button or
form), and the `except Exception` handler logs and returns the expose. -/
def sendEmailForm (w : SendEmailWorld) (expose : Expose) : Except PyExc Expose :=
  match w.formPhase with
  | some _ => Except.ok expose
  | none => Except.ok expose

/-- The method `Immobilienscout.send_email`: acquires the driver with
`get_driver_force`, logs in, navigates to `expose['url']`, resolves a captcha
when the page source demands one, dismisses the cookie banner (catching only
`TimeoutException`), and then runs the guarded contact-form block. Every
failure before that block propagates to the caller. -/
def send_email (w : SendEmailWorld) (expose : Expose) : Except PyExc Expose :=
  match w.driverLoad with
  | some e => Except.error e
  | none =>
  match w.login with
  | some e => Except.error e
  | none =>
  match dictLookup expose "url" with
  | none => Except.error PyExc.keyError
  | some _ =>
  match w.navigate with
  | some e => Except.error e
  | none =>
  match (if w.hasGeetest then w.geetest else if w.hasRecaptcha then w.recaptcha else none) with
  | some e => Except.error e
  | none =>
  match w.cookieBanner with
  | some PyExc.timeout => sendEmailForm w expose
  | some e => Except.error e
  | none => sendEmailForm w expose

/-- A run in which `login` raises a `TimeoutException` (for example,
`WebDriverWait(driver, 10).until(...)` expiring). -/
def loginTimeoutWorld : SendEmailWorld :=
  ⟨none, some PyExc.timeout, none, false, false, none, none, none, none⟩

/-- Counterexample to C3: when the login step inside `send_email` raises, the
error is not caught — `send_email` raises to its caller instead of returning
the expose, so not every dispatch error is contained inside `send_email`. -/
theorem send_email_error_propagates :
    send_email loginTimeoutWorld [("url", Y.vStr "u")] = Except.error PyExc.timeout
    ∧ send_email loginTimeoutWorld [("url", Y.vStr "u")]
        ≠ Except.ok [("url", Y.vStr "u")] := by
  refine ⟨rfl, ?_⟩
  have h : send_email loginTimeoutWorld [("url", Y.vStr "u")]
      = Except.error PyExc.timeout := rfl
  rw [h]
  intro hc
  exact Except.noConfusion hc

/-- C3 amended: errors raised inside the guarded contact-form block of
`send_email` are caught and logged there and the expose is returned, so later
listings continue; but errors raised while acquiring the driver, logging in,
navigating to the expose page, solving a captcha, or a non-timeout error
while dismissing the cookie banner propagate to the caller. -/
theorem send_email_form_errors_caught (w : SendEmailWorld) (e : Expose) (u : Y)
    (h1 : w.driverLoad = none) (h2 : w.login = none)
    (hurl : dictLookup e "url" = some u) (h3 : w.navigate = none)
    (h4 : w.hasGeetest = true → w.geetest = none)
    (h5 : w.hasRecaptcha = true → w.recaptcha = none)
    (h6 : w.cookieBanner = none ∨ w.cookieBanner = some PyExc.timeout) :
    send_email w e = Except.ok e := by
  unfold send_email
  rw [h1, h2, hurl, h3]
  have hcap : (if w.hasGeetest then w.geetest
      else if w.hasRecaptcha then w.recaptcha else none) = none := by
    cases hg : w.hasGeetest with
    | true => simpa [hg] using h4 hg
    | false =>
      cases hrc : w.hasRecaptcha with
      | true => simpa [hg, hrc] using h5 hrc
      | false => simp [hg, hrc]
  rw [hcap]
  have hform : sendEmailForm w e = Except.ok e := by
    unfold sendEmailForm
    cases w.formPhase <;> rfl
  rcases h6 with h6 | h6 <;> rw [h6] <;> exact hform

/-- Witness for C3 (amended) at a run in which the contact-form block raises
but everything before it succeeds: the expose is still returned. -/
theorem send_email_form_errors_caught_witness :
    send_email ⟨none, none, none, false, false, none, none, none, some PyExc.valueError⟩
        [("url", Y.vStr "u")]
      = Except.ok [("url", Y.vStr "u")] :=
  send_email_form_errors_caught
    ⟨none, none, none, false, false, none, none, none, some PyExc.valueError⟩
    [("url", Y.vStr "u")] (Y.vStr "u") rfl rfl rfl rfl
    (fun h => by cases h) (fun h => by cases h) (Or.inl rfl)

/-- Decimal digit characters of `n`, least significant first, with enough
fuel. -/
def natDigitsRev (fuel n : Nat) : List Char :=
  match fuel with
  | 0 => []
  | fuel + 1 =>
    if n < 10 then [Char.ofNat (48 + n)]
    else Char.ofNat (48 + n % 10) :: natDigitsRev fuel (n / 10)

/-- Python `str(n)` for an integer. -/
def intStr (n : Int) : String :=
  if n < 0 then String.mk ('-' :: (natDigitsRev (n.natAbs + 1) n.natAbs).reverse)
  else String.mk (natDigitsRev (n.natAbs + 1) n.natAbs).reverse

/-- A result-list title link: an `a` element with class
`result-list-entry__brand-title-container`. -/
structure TitleLink where
  href : String
  text : String

/-- An `img` tag inside a gallery container: its `src` and `data-lazy-src`
attributes. -/
structure ImgTag where
  src : Option String
  lazySrc : Option String

/-- The gallery cell of one result row: either no `div.gallery-container`
was found, or one was found and may or may not contain an `img` tag. -/
inductive GalleryCell where
  | noContainer
  | container (img : Option ImgTag)

/-- The parts of an ImmobilienScout result page that `extract_data` and
`get_results` read: the text of the result-count element (if present), the
title links, and the per-row attribute containers (`dd` texts), address
texts (`none` embeds the `AttributeError` path caught in the source) and
gallery cells. A page without a `resultListItems` element has an empty
`titleLinks` list. -/
structure ResultPage where
  resultCountText : Option String
  titleLinks : List TitleLink
  attrContainers : List (List String)
  addressTexts : List (Option String)
  galleries : List GalleryCell

/-- One entry produced by `extract_data`. -/
structure ISEntry where
  id : Int
  url : String
  image : Option String
  title : String
  address : String
  crawler : String
  price : String
  size : String
  rooms : String
deriving DecidableEq, Repr

/-- The id computed for a title link:
`int(link.get('href').split('/')[-1].replace('.html', ''))`; `none` models
the `ValueError` of `int`. -/
def parseExposeId (href : String) : Option Int :=
  pyInt (pyReplace (String.mk ((pySplit '/' href.data).getLastD [])) ".html" "")

/-- The first loop of `extract_data`: collects `expose_ids` and
`expose_urls` from the title links (a constructed expose URL when the id has
more than five digits, the raw `href` otherwise). -/
def collectIdsUrls : List TitleLink → Except PyExc (List Int × List String)
  | [] => Except.ok ([], [])
  | link :: rest =>
    match parseExposeId link.href with
    | none => Except.error PyExc.valueError
    | some eid =>
      let url := if 5 < (intStr eid).length then
          "https://www.immobilienscout24.de/expose/" ++ intStr eid
        else link.href
      match collectIdsUrls rest with
      | Except.error e => Except.error e
      | Except.ok (ids, urls) => Except.ok (eid :: ids, url :: urls)

/-- Python `text.strip().split(' ')[0].strip()` as used for the price, size
and rooms columns. -/
def firstWord (t : String) : String :=
  pyStrip (String.mk ((pySplit ' ' (pyStrip t).data).headD []))

/-- The gallery-image extraction of one row: no container gives `None`; a
container without an `img` tag raises `TypeError` (`None` is not
subscriptable); an `img` tag uses `src`, falls back to `data-lazy-src` on
`KeyError`, and raises `KeyError` when both attributes are missing. -/
def galleryImage : GalleryCell → Except PyExc (Option String)
  | GalleryCell.noContainer => Except.ok none
  | GalleryCell.container none => Except.error PyExc.typeError
  | GalleryCell.container (some img) =>
    match img.src with
    | some s => Except.ok (some s)
    | none =>
      match img.lazySrc with
      | some l => Except.ok (some l)
      | none => Except.error PyExc.keyError

/-- The second loop of `extract_data`, one iteration per title link, carrying
the enumerate index `idx` and the accumulated `entries`. `lastId` is the
value of the variable `expose_id` after the first loop — the id of the LAST
title link (0 for an empty page) — which the source's duplicate check
compares against each accumulated entry's id. -/
def extractLoop (name : String) (page : ResultPage) (lastId : Int) :
    List (TitleLink × Int × String) → Nat → List ISEntry → Except PyExc (List ISEntry)
  | [], _, entries => Except.ok entries
  | (link, eid, url) :: rest, idx, entries =>
    match page.attrContainers[idx]? with
    | none => Except.error PyExc.indexError
    | some attrEls =>
    match page.addressTexts[idx]? with
    | none => Except.error PyExc.indexError
    | some addrOpt =>
    let address := match addrOpt with
      | none => "No address given"
      | some t => pyStrip t
    match page.galleries[idx]? with
    | none => Except.error PyExc.indexError
    | some gcell =>
    match galleryImage gcell with
    | Except.error e => Except.error e
    | Except.ok image =>
    let title := pyReplace (pyStrip link.text) "NEU" ""
    let price := if 2 < attrEls.length then firstWord (attrEls.getD 0 "") else ""
    let size := if 2 < attrEls.length then firstWord (attrEls.getD 1 "") ++ " qm" else ""
    let rooms := if 2 < attrEls.length then firstWord (attrEls.getD 2 "") else ""
    let details : ISEntry := ⟨eid, url, image, title, address, name, price, size, rooms⟩
    let exist := entries.any (fun ex => lastId == ex.id)
    extractLoop name page lastId rest (idx + 1) (if exist then entries else entries ++ [details])

/-- The method `Immobilienscout.extract_data`: collects ids and urls from the
title links, then builds the entry list row by row; `name` is the value of
`self.get_name()`. -/
def extract_data (name : String) (page : ResultPage) : Except PyExc (List ISEntry) :=
  match collectIdsUrls page.titleLinks with
  | Except.error e => Except.error e
  | Except.ok (ids, urls) =>
    extractLoop name page (ids.getLastD 0) (page.titleLinks.zip (ids.zip urls)) 0 []

/-- The function `get_result_count`: 0 when the result-count element is
absent, otherwise `int(text.replace('.', ''))`. -/
def get_result_count (page : ResultPage) : Except PyExc Int :=
  match page.resultCountText with
  | none => Except.ok 0
  | some t =>
    match pyInt (pyReplace t "." "") with
    | some n => Except.ok n
    | none => Except.error PyExc.valueError

/-- The class constant `Immobilienscout.RESULT_LIMIT`. -/
def RESULT_LIMIT : Int := 50

/-- Python `isinstance(cur_entry, list)` applied to the value returned by
`extract_data`: that value is always a Python list, so the test is true. -/
def pyIsList (_cur : List ISEntry) : Bool := true

/-- The `while` condition of the pagination loop in `get_results`:
`len(entries) < min(no_of_results, RESULT_LIMIT) and (max_pages is None or
page_no < max_pages)`. -/
def loopCond (noOfResults : Int) (maxPages : Option Nat) (pageNo : Nat)
    (entries : List ISEntry) : Bool :=
  decide ((entries.length : Int) < min noOfResults RESULT_LIMIT)
    && (match maxPages with
        | none => true
        | some m => decide (pageNo < m))

/-- The pagination `while` loop of `get_results` (non-Selenium path), with
recursion fuel for the unbounded loop. The returned list records the page
numbers fetched inside the loop appended to those fetched before it. -/
def get_results_loop (name : String) (pages : Nat → ResultPage) (noOfResults : Int)
    (maxPages : Option Nat) :
    Nat → Nat → List ISEntry → List Nat → Except PyExc (List Nat × List ISEntry)
  | 0, _, _, _ => Except.error PyExc.fuelExhausted
  | fuel + 1, pageNo, entries, fetched =>
    if loopCond noOfResults maxPages pageNo entries then
      match extract_data name (pages (pageNo + 1)) with
      | Except.error e => Except.error e
      | Except.ok cur =>
        if pyIsList cur then Except.ok (fetched ++ [pageNo + 1], entries)
        else get_results_loop name pages noOfResults maxPages fuel (pageNo + 1)
          (entries ++ cur) (fetched ++ [pageNo + 1])
    else Except.ok (fetched, entries)

/-- The method `Immobilienscout.get_results` on the non-Selenium path: fetch
page 1, read the result count, extract the first page's entries, then run
the pagination loop. `pages` maps a page number to the fetched page (URL
formatting is absorbed into this function); the result pairs the fetched
page numbers with the returned entries. -/
def get_results (name : String) (pages : Nat → ResultPage) (maxPages : Option Nat)
    (fuel : Nat) : Except PyExc (List Nat × List ISEntry) :=
  match get_result_count (pages 1) with
  | Except.error e => Except.error e
  | Except.ok noOfResults =>
  match extract_data name (pages 1) with
  | Except.error e => Except.error e
  | Except.ok entries =>
    get_results_loop name pages noOfResults maxPages fuel 1 entries [1]

/-- A result page with three title links whose ids are 123456, 123456 and
654321, used to exercise the duplicate check of `extract_data`. -/
def dupPage : ResultPage :=
  ⟨some "3",
   [⟨"https://www.immobilienscout24.de/expose/123456.html", "Flat A"⟩,
    ⟨"https://www.immobilienscout24.de/expose/123456.html", "Flat B"⟩,
    ⟨"https://www.immobilienscout24.de/expose/654321.html", "Flat C"⟩],
   [[], [], []],
   [some "Addr 1", some "Addr 2", some "Addr 3"],
   [GalleryCell.noContainer, GalleryCell.noContainer, GalleryCell.noContainer]⟩

/-- C8: on a page whose title links carry the ids 123456, 123456, 654321,
`extract_data` returns two entries with id 123456 — the duplicate check
compares each accumulated entry against the id of the page's last title
link (the stale `expose_id` variable), not against the current entry's id,
so the entry list is not duplicate-free. -/
theorem extract_data_emits_duplicate_ids :
    (extract_data "Immobilienscout" dupPage).map (fun es => es.map ISEntry.id)
      = Except.ok [123456, 123456, 654321]
    ∧ ¬ ([123456, 123456, 654321] : List Int).Nodup := by
  constructor
  · rfl
  · decide

/-- C9: whenever the non-Selenium `get_results` returns normally (with any
fuel at least 1), it fetched either just page 1 or pages 1 and 2 — the loop
body runs at most once because `extract_data` always returns a list and the
`isinstance(cur_entry, list)` check then breaks — and the entries returned
are exactly those extracted from page 1, independent of the result count,
`RESULT_LIMIT` and `max_pages`. -/
theorem get_results_fetches_at_most_two_pages (name : String)
    (pages : Nat → ResultPage) (maxPages : Option Nat) (fuel : Nat)
    (fetched : List Nat) (entries : List ISEntry) (hfuel : 1 ≤ fuel)
    (h : get_results name pages maxPages fuel = Except.ok (fetched, entries)) :
    (fetched = [1] ∨ fetched = [1, 2])
    ∧ extract_data name (pages 1) = Except.ok entries := by
  unfold get_results at h
  cases hc : get_result_count (pages 1) with
  | error e =>
    rw [hc] at h
    exact absurd h (by simp)
  | ok noOfResults =>
    rw [hc] at h
    cases he : extract_data name (pages 1) with
    | error e =>
      rw [he] at h
      exact absurd h (by simp)
    | ok es1 =>
      rw [he] at h
      cases fuel with
      | zero => omega
      | succ f =>
        unfold get_results_loop at h
        by_cases hcond : loopCond noOfResults maxPages 1 es1 = true
        · simp only [hcond, if_true] at h
          cases he2 : extract_data name (pages 2) with
          | error e =>
            rw [he2] at h
            exact absurd h (by simp)
          | ok cur =>
            rw [he2] at h
            simp only [pyIsList, if_true, Except.ok.injEq, Prod.mk.injEq] at h
            obtain ⟨hf, hent⟩ := h
            exact ⟨Or.inr hf.symm, by rw [← hent]⟩
        · simp only [Bool.not_eq_true] at hcond
          simp only [hcond, Bool.false_eq_true, if_false, Except.ok.injEq,
            Prod.mk.injEq] at h
          obtain ⟨hf, hent⟩ := h
          exact ⟨Or.inl hf.symm, by rw [← hent]⟩

/-- A result page with no result list and no result count. -/
def emptyResultPage : ResultPage := ⟨none, [], [], [], []⟩

/-- Witness for C9 at the constant empty page with fuel 1. -/
theorem get_results_fetches_at_most_two_pages_witness :
    (([1] : List Nat) = [1] ∨ ([1] : List Nat) = [1, 2])
    ∧ extract_data "Immobilienscout" emptyResultPage = Except.ok [] :=
  get_results_fetches_at_most_two_pages "Immobilienscout" (fun _ => emptyResultPage)
    none 1 [1] [] (by decide) rfl
